import Mathlib

/-!
# Verification of the CRM HCP interaction-logging module

Shallow embedding of the synchronization engine between conversational input
and structured form state, from `src/Task-1/crm-hcp-module/src/App.js`:
the store reducer (`interactionReducer`), the action vocabulary
(`UPDATE_FIELD`, `ADD_MESSAGE`, `SET_FORM_DATA`), and the chat-send handler
(`handleSend`) of the `ChatWidget` component.

The React state is a plain JavaScript object mutated by object-spread, with
computed keys (`[action.payload.field]`), so we model it as an association
list with JavaScript assignment semantics: setting an existing key replaces
its value in place, setting a fresh key appends a new binding, and spreading
one object into another (`{...state, ...payload}`) folds the payload's
bindings over the state.
-/

/-- An entry of `chatHistory`: `{ sender, text }` as built at
`App.js` lines 69, 86, 104 and in `initialState`. The code tags the
assistant side with the string `"ai"`. -/
structure ChatMessage where
  sender : String
  text : String
deriving DecidableEq, Repr

/-- A JavaScript value as it occurs in this state object: every field of the
form is a string, and `chatHistory` is an array of messages. -/
inductive JsValue where
  | str : String → JsValue
  | msgs : List ChatMessage → JsValue
deriving DecidableEq, Repr

/-- A JavaScript object: an ordered association list of string keys. A list
obtained from a real JS object has pairwise-distinct keys; theorems that
depend on key counts carry that `Nodup` hypothesis explicitly. -/
abbrev JsObject := List (String × JsValue)

/-- Property read `o[k]`: the value of the first binding of `k`. -/
def objGet : JsObject → String → Option JsValue
  | [], _ => none
  | (k', v') :: rest, k => if k' = k then some v' else objGet rest k

/-- Property write `o[k] = v` as it behaves inside a spread literal:
an existing binding is replaced in place, a fresh key is appended. -/
def objSet : JsObject → String → JsValue → JsObject
  | [], k, v => [(k, v)]
  | (k', v') :: rest, k, v =>
      if k' = k then (k, v) :: rest else (k', v') :: objSet rest k v

/-- Object spread `{...o, ...p}`: every binding of `p` written over `o`,
left to right. -/
def objMerge (o p : JsObject) : JsObject :=
  p.foldl (fun acc kv => objSet acc kv.1 kv.2) o

/-- `state.chatHistory` viewed as a message list; a state whose
`chatHistory` property is missing or not an array reads as empty (the code
would throw before producing such a state). -/
def chatHistoryOf (s : JsObject) : List ChatMessage :=
  match objGet s "chatHistory" with
  | some (JsValue.msgs l) => l
  | _ => []

/-- The action vocabulary of `ACTIONS` in `App.js` (lines 18-22); `other`
stands for any unrecognized `action.type`, which the reducer's `default`
branch ignores. -/
inductive StoreAction where
  | updateField (field : String) (value : JsValue)
  | addMessage (msg : ChatMessage)
  | setFormData (payload : JsObject)
  | other
deriving DecidableEq, Repr

/-- `interactionReducer` from `App.js` lines 24-35:

* `UPDATE_FIELD`: `{ ...state, [action.payload.field]: action.payload.value }`
* `ADD_MESSAGE`: `{ ...state, chatHistory: [...state.chatHistory, action.payload] }`
* `SET_FORM_DATA`: `{ ...state, ...action.payload, status: 'ai_filled' }`
* default: `state`. -/
def interactionReducer (state : JsObject) (action : StoreAction) : JsObject :=
  match action with
  | StoreAction.updateField f v => objSet state f v
  | StoreAction.addMessage m =>
      objSet state "chatHistory" (JsValue.msgs (chatHistoryOf state ++ [m]))
  | StoreAction.setFormData p =>
      objSet (objMerge state p) "status" (JsValue.str "ai_filled")
  | StoreAction.other => state

/-- `initialState` from `App.js` lines 4-16; `date` is computed from the
clock at module load (`new Date().toISOString().split('T')[0]`), so it is a
parameter here. -/
def initialState (today : String) : JsObject :=
  [ ("hcpName", JsValue.str ""),
    ("interactionType", JsValue.str "Meeting"),
    ("date", JsValue.str today),
    ("time", JsValue.str "10:00"),
    ("topics", JsValue.str ""),
    ("sentiment", JsValue.str "Neutral"),
    ("outcomes", JsValue.str ""),
    ("chatHistory", JsValue.msgs
      [⟨"ai", "Hello! I am your AI Assistant. Tell me about your visit (e.g., \"I met Dr. Smith...\")."⟩]),
    ("status", JsValue.str "idle") ]

/-- Outcome of the awaited `fetch('http://localhost:8000/chat')` plus
`response.json()`: either a parsed body `{ response, form_data? }` or any
transport/parse failure, which lands in the `catch` block. -/
inductive FetchResult where
  | ok (response : String) (form_data : Option JsObject)
  | err
deriving DecidableEq, Repr

/-- What one invocation of `handleSend` produces: the final store state,
whether a network request was issued, and the final value of the `isTyping`
flag (the component's pending-request indicator, set at line 70 and cleared
at lines 84 and 103). -/
structure TurnOutcome where
  state : JsObject
  fetchIssued : Bool
  finalTyping : Bool
deriving DecidableEq, Repr

/-- The JavaScript string builtin `input.trim()`: strip leading and
trailing whitespace. Written over the character list so that it is fully
executable. -/
def strTrim (s : String) : String :=
  ⟨((s.data.dropWhile Char.isWhitespace).reverse.dropWhile Char.isWhitespace).reverse⟩

/-- The synchronous prefix of `handleSend` (lines 62-70): the guard
`if (!input.trim()) return` and, when it passes, the optimistic dispatch of
the user message `{ sender: 'user', text: userMessage }` where
`userMessage = input` (the raw, untrimmed input, line 65). Returns the
store state from which the fetch is issued, or `none` when the guard
aborts the turn before any append. -/
def handleSendPre (state : JsObject) (input : String) : Option JsObject :=
  if strTrim input = "" then none
  else some (interactionReducer state (StoreAction.addMessage ⟨"user", input⟩))

/-- `handleSend` from `App.js` lines 62-106, as a function of the store
state, the input box contents, the current `isTyping` flag and the settled
fetch result. On success the assistant reply is appended and
`data.form_data` is routed by key count (lines 90-99): absent or empty
payloads dispatch nothing, a single entry dispatches `UPDATE_FIELD` with
`Object.entries(data.form_data)[0]`, two or more dispatch `SET_FORM_DATA`
with the whole payload. On failure the fixed message
`"Connection error."` is appended and the record is untouched. -/
def handleSend (state : JsObject) (input : String) (isTyping : Bool)
    (result : FetchResult) : TurnOutcome :=
  match handleSendPre state input with
  | none => ⟨state, false, isTyping⟩
  | some s1 =>
    match result with
    | FetchResult.err =>
        ⟨interactionReducer s1 (StoreAction.addMessage ⟨"ai", "Connection error."⟩),
          true, false⟩
    | FetchResult.ok resp fd =>
        let s2 := interactionReducer s1 (StoreAction.addMessage ⟨"ai", resp⟩)
        match fd with
        | none => ⟨s2, true, false⟩
        | some [] => ⟨s2, true, false⟩
        | some [(k, v)] => ⟨interactionReducer s2 (StoreAction.updateField k v), true, false⟩
        | some p => ⟨interactionReducer s2 (StoreAction.setFormData p), true, false⟩

/-- Folding a sequence of dispatched actions over the store. -/
def applyActions (s : JsObject) (acts : List StoreAction) : JsObject :=
  acts.foldl interactionReducer s

/-- The InteractionRecord attributes carried by the `App.js` state object
(every key except the transcript and the `status` marker). -/
def recordFields : List String :=
  ["hcpName", "interactionType", "date", "time", "topics", "sentiment", "outcomes"]

/-- Whether an action writes the `status` key: `SET_FORM_DATA` always does
(it appends `status: 'ai_filled'` after the spread), `UPDATE_FIELD` does
exactly when its computed key is `status`. -/
def setsStatus : StoreAction → Bool
  | StoreAction.setFormData _ => true
  | StoreAction.updateField f _ => f == "status"
  | _ => false

/-- Whether an action is a full-record merge dispatch. -/
def isSetFormData : StoreAction → Bool
  | StoreAction.setFormData _ => true
  | _ => false

/-- Whether an extraction payload avoids the `chatHistory` key (a payload
naming it would overwrite the transcript through the computed-key write). -/
def fdAvoidsChat : Option JsObject → Bool
  | none => true
  | some p => decide ("chatHistory" ∉ p.map Prod.fst)

/-- Whether an action leaves the `chatHistory` key unreplaced (it may still
append to it). -/
def actionAvoidsChat : StoreAction → Bool
  | StoreAction.updateField f _ => decide (f ≠ "chatHistory")
  | StoreAction.addMessage _ => true
  | StoreAction.setFormData p => decide ("chatHistory" ∉ p.map Prod.fst)
  | StoreAction.other => true

/-! ## Object-model lemmas -/

theorem objGet_objSet_self (o : JsObject) (k : String) (v : JsValue) :
    objGet (objSet o k v) k = some v := by
  induction o with
  | nil => simp [objSet, objGet]
  | cons kv rest ih =>
      obtain ⟨k', v'⟩ := kv
      by_cases h : k' = k
      · simp [objSet, objGet, h]
      · simp [objSet, objGet, h, ih]

theorem objGet_objSet_ne (o : JsObject) (k k' : String) (v : JsValue)
    (h : k' ≠ k) : objGet (objSet o k v) k' = objGet o k' := by
  induction o with
  | nil => simp [objSet, objGet, Ne.symm h]
  | cons kv rest ih =>
      obtain ⟨k₀, v₀⟩ := kv
      by_cases h0 : k₀ = k
      · subst h0
        simp [objSet, objGet, Ne.symm h]
      · simp [objSet, objGet, h0, ih]

theorem objGet_objMerge_not_mem (o p : JsObject) (k : String)
    (h : k ∉ p.map Prod.fst) : objGet (objMerge o p) k = objGet o k := by
  induction p generalizing o with
  | nil => rfl
  | cons kv rest ih =>
      obtain ⟨k₀, v₀⟩ := kv
      simp only [List.map_cons, List.mem_cons, not_or] at h
      have step : objMerge o ((k₀, v₀) :: rest) = objMerge (objSet o k₀ v₀) rest := rfl
      rw [step, ih _ h.2, objGet_objSet_ne _ _ _ _ h.1]

theorem objGet_objMerge_mem (o p : JsObject) (k : String) (v : JsValue)
    (hnd : (p.map Prod.fst).Nodup) (hm : (k, v) ∈ p) :
    objGet (objMerge o p) k = some v := by
  induction p generalizing o with
  | nil => cases hm
  | cons kv rest ih =>
      obtain ⟨k₀, v₀⟩ := kv
      simp only [List.map_cons, List.nodup_cons] at hnd
      have step : objMerge o ((k₀, v₀) :: rest) = objMerge (objSet o k₀ v₀) rest := rfl
      rcases List.mem_cons.mp hm with heq | hrest
      · obtain ⟨hk, hv⟩ := Prod.mk.injEq .. ▸ heq
        subst hk; subst hv
        have hnot : k ∉ rest.map Prod.fst := hnd.1
        rw [step, objGet_objMerge_not_mem _ _ _ hnot, objGet_objSet_self]
      · exact step ▸ ih (objSet o k₀ v₀) hnd.2 hrest

theorem chatHistoryOf_objSet_ne (s : JsObject) (k : String) (v : JsValue)
    (h : k ≠ "chatHistory") : chatHistoryOf (objSet s k v) = chatHistoryOf s := by
  unfold chatHistoryOf
  rw [objGet_objSet_ne _ _ _ _ (fun hk => h hk.symm)]

theorem chatHistoryOf_addMessage (s : JsObject) (m : ChatMessage) :
    chatHistoryOf (interactionReducer s (StoreAction.addMessage m))
      = chatHistoryOf s ++ [m] := by
  unfold interactionReducer chatHistoryOf
  rw [objGet_objSet_self]

theorem objGet_addMessage_ne (s : JsObject) (m : ChatMessage) (k : String)
    (h : k ≠ "chatHistory") :
    objGet (interactionReducer s (StoreAction.addMessage m)) k = objGet s k := by
  unfold interactionReducer
  exact objGet_objSet_ne _ _ _ _ h

/-! ## Claim theorems -/

/-- C1: for every extraction payload delivered with an assistant response,
the routing depends only on the key count: an absent or empty `form_data`
dispatches no record mutation, a one-entry payload dispatches a single
`UPDATE_FIELD` for that entry, and a payload with two or more entries
dispatches a full `SET_FORM_DATA` merge — the named fields play no role in
the routing. -/
theorem extraction_routing_by_key_count (s : JsObject) (input : String)
    (t : Bool) (resp : String) (h : strTrim input ≠ "") :
    ((handleSend s input t (FetchResult.ok resp none)).state
        = interactionReducer
            (interactionReducer s (StoreAction.addMessage ⟨"user", input⟩))
            (StoreAction.addMessage ⟨"ai", resp⟩))
    ∧ ((handleSend s input t (FetchResult.ok resp (some []))).state
        = interactionReducer
            (interactionReducer s (StoreAction.addMessage ⟨"user", input⟩))
            (StoreAction.addMessage ⟨"ai", resp⟩))
    ∧ (∀ k v, (handleSend s input t (FetchResult.ok resp (some [(k, v)]))).state
        = interactionReducer
            (interactionReducer
              (interactionReducer s (StoreAction.addMessage ⟨"user", input⟩))
              (StoreAction.addMessage ⟨"ai", resp⟩))
            (StoreAction.updateField k v))
    ∧ (∀ kv kv' rest,
        (handleSend s input t (FetchResult.ok resp (some (kv :: kv' :: rest)))).state
        = interactionReducer
            (interactionReducer
              (interactionReducer s (StoreAction.addMessage ⟨"user", input⟩))
              (StoreAction.addMessage ⟨"ai", resp⟩))
            (StoreAction.setFormData (kv :: kv' :: rest))) := by
  refine ⟨?_, ?_, ?_, ?_⟩
  · simp [handleSend, handleSendPre, h]
  · simp [handleSend, handleSendPre, h]
  · intro k v; simp [handleSend, handleSendPre, h]
  · intro kv kv' rest; simp [handleSend, handleSendPre, h]

theorem extraction_routing_by_key_count_witness :
    strTrim "hi" ≠ ""
    ∧ (handleSend (initialState "2025-01-01") "hi" false
        (FetchResult.ok "ok" (some [("hcpName", JsValue.str "Dr")]))).state
      = interactionReducer
          (interactionReducer
            (interactionReducer (initialState "2025-01-01")
              (StoreAction.addMessage ⟨"user", "hi"⟩))
            (StoreAction.addMessage ⟨"ai", "ok"⟩))
          (StoreAction.updateField "hcpName" (JsValue.str "Dr")) :=
  ⟨by decide,
    (extraction_routing_by_key_count (initialState "2025-01-01") "hi" false "ok"
      (by decide)).2.2.1 "hcpName" (JsValue.str "Dr")⟩

/-- C9: sending an input that is empty or whitespace-only is a complete
no-op: the handler returns before any dispatch, so the state (transcript
and record) is unchanged, no fetch is issued, and the typing flag is never
set. -/
theorem empty_input_turn_is_noop (s : JsObject) (input : String) (t : Bool)
    (r : FetchResult) (h : strTrim input = "") :
    handleSend s input t r = ⟨s, false, t⟩ ∧ handleSendPre s input = none := by
  constructor
  · simp [handleSend, handleSendPre, h]
  · simp [handleSendPre, h]

theorem empty_input_turn_is_noop_witness :
    handleSend (initialState "2025-01-01") "   " true FetchResult.err
      = ⟨initialState "2025-01-01", false, true⟩
    ∧ handleSendPre (initialState "2025-01-01") "   " = none :=
  empty_input_turn_is_noop (initialState "2025-01-01") "   " true
    FetchResult.err (by decide)

/-- C7: on a failed collaborator request the transcript gains exactly the
user message followed by the fixed `"Connection error."` assistant-sender
message, every other key of the state (the whole record and the status
marker) is unchanged, and the typing flag is cleared so a new turn can
begin. -/
theorem failed_turn_two_messages_record_unchanged (s : JsObject)
    (input : String) (t : Bool) (h : strTrim input ≠ "") :
    chatHistoryOf (handleSend s input t FetchResult.err).state
      = chatHistoryOf s ++ [⟨"user", input⟩, ⟨"ai", "Connection error."⟩]
    ∧ (∀ k, k ≠ "chatHistory" →
        objGet (handleSend s input t FetchResult.err).state k = objGet s k)
    ∧ (handleSend s input t FetchResult.err).finalTyping = false := by
  have hstate : (handleSend s input t FetchResult.err).state
      = interactionReducer
          (interactionReducer s (StoreAction.addMessage ⟨"user", input⟩))
          (StoreAction.addMessage ⟨"ai", "Connection error."⟩) := by
    simp [handleSend, handleSendPre, h]
  refine ⟨?_, ?_, ?_⟩
  · rw [hstate, chatHistoryOf_addMessage, chatHistoryOf_addMessage,
      List.append_assoc]
    rfl
  · intro k hk
    rw [hstate, objGet_addMessage_ne _ _ _ hk, objGet_addMessage_ne _ _ _ hk]
  · simp [handleSend, handleSendPre, h]

theorem failed_turn_two_messages_record_unchanged_witness :
    chatHistoryOf (handleSend (initialState "2025-01-01") "I met Dr. Smith"
        false FetchResult.err).state
      = chatHistoryOf (initialState "2025-01-01")
        ++ [⟨"user", "I met Dr. Smith"⟩, ⟨"ai", "Connection error."⟩]
    ∧ objGet (handleSend (initialState "2025-01-01") "I met Dr. Smith"
        false FetchResult.err).state "sentiment"
      = objGet (initialState "2025-01-01") "sentiment" :=
  ⟨(failed_turn_two_messages_record_unchanged (initialState "2025-01-01")
      "I met Dr. Smith" false (by decide)).1,
    (failed_turn_two_messages_record_unchanged (initialState "2025-01-01")
      "I met Dr. Smith" false (by decide)).2.1 "sentiment" (by decide)⟩

/-- C2 counterexample: with the typing flag true — modelling a first
request still in flight — a second invocation of the handler on non-empty
input still issues a fetch: the code's only guard is the emptiness test on
the input, so turns are not single-flight. -/
theorem second_send_starts_while_pending :
    (handleSend (initialState "2025-01-01") "hi" true
      (FetchResult.ok "ok" none)).fetchIssued = true := by decide

/-- C2 amended: the handler has no single-flight guard — whether a send
starts (and a fetch is issued) depends only on the trimmed input being
non-empty, never on the pending/typing flag, so a second turn can overlap
a first. -/
theorem send_guard_ignores_pending (s : JsObject) (input : String)
    (t : Bool) (r : FetchResult) :
    (handleSend s input t r).fetchIssued = decide (strTrim input ≠ "") := by
  by_cases h : strTrim input = ""
  · simp [handleSend, handleSendPre, h]
  · rcases r with ⟨resp, fd⟩ | _
    · rcases fd with _ | ⟨_ | ⟨⟨k, v⟩, _ | ⟨kv', rest⟩⟩⟩ <;>
        simp [handleSend, handleSendPre, h]
    · simp [handleSend, handleSendPre, h]

/-- C3 counterexample: the transcript is not append-only under every
action — an `UPDATE_FIELD` whose computed key is `chatHistory` replaces the
transcript wholesale, so the prior history (the greeting) is not a prefix
of the result (empty). -/
theorem transcript_replaced_by_chatHistory_patch :
    ¬ (chatHistoryOf (initialState "2025-01-01") <+:
        chatHistoryOf (interactionReducer (initialState "2025-01-01")
          (StoreAction.updateField "chatHistory" (JsValue.msgs [])))) := by
  decide

/-- C3 amended: the transcript is append-only under `ADD_MESSAGE` always,
and under `UPDATE_FIELD` and `SET_FORM_DATA` whenever the dispatched
field/payload does not name the `chatHistory` key; an action naming
`chatHistory` replaces the transcript instead. -/
theorem transcript_append_only_of_avoids_chat (s : JsObject)
    (a : StoreAction) (h : actionAvoidsChat a = true) :
    chatHistoryOf s <+: chatHistoryOf (interactionReducer s a) := by
  cases a with
  | updateField f v =>
      have hf : f ≠ "chatHistory" := by
        simpa [actionAvoidsChat] using h
      rw [show interactionReducer s (StoreAction.updateField f v)
          = objSet s f v from rfl]
      rw [chatHistoryOf_objSet_ne s f v hf]
  | addMessage m =>
      rw [chatHistoryOf_addMessage]
      exact List.prefix_append _ _
  | setFormData p =>
      have hp : "chatHistory" ∉ p.map Prod.fst := by
        simpa [actionAvoidsChat] using h
      have : chatHistoryOf (interactionReducer s (StoreAction.setFormData p))
          = chatHistoryOf s := by
        unfold interactionReducer chatHistoryOf
        rw [objGet_objSet_ne _ _ _ _ (by decide),
          objGet_objMerge_not_mem _ _ _ hp]
      rw [this]
  | other => exact List.prefix_refl _

theorem transcript_append_only_of_avoids_chat_witness :
    chatHistoryOf (initialState "2025-01-01") <+:
      chatHistoryOf (interactionReducer (initialState "2025-01-01")
        (StoreAction.setFormData
          [("hcpName", JsValue.str "Dr. Smith"),
            ("sentiment", JsValue.str "Positive")])) :=
  transcript_append_only_of_avoids_chat (initialState "2025-01-01")
    (StoreAction.setFormData
      [("hcpName", JsValue.str "Dr. Smith"),
        ("sentiment", JsValue.str "Positive")])
    (by decide)

/-! ## Further shared lemmas about `SET_FORM_DATA` and `status` -/

theorem chatHistoryOf_setFormData (s p : JsObject)
    (hp : "chatHistory" ∉ p.map Prod.fst) :
    chatHistoryOf (interactionReducer s (StoreAction.setFormData p))
      = chatHistoryOf s := by
  unfold interactionReducer chatHistoryOf
  rw [objGet_objSet_ne _ _ _ _ (by decide), objGet_objMerge_not_mem _ _ _ hp]

theorem objGet_setFormData_mem (s p : JsObject) (k : String) (v : JsValue)
    (hnd : (p.map Prod.fst).Nodup) (hm : (k, v) ∈ p) (hks : k ≠ "status") :
    objGet (interactionReducer s (StoreAction.setFormData p)) k = some v := by
  unfold interactionReducer
  rw [objGet_objSet_ne _ _ _ _ hks, objGet_objMerge_mem _ _ _ _ hnd hm]

theorem objGet_setFormData_not_mem (s p : JsObject) (k : String)
    (hk : k ∉ p.map Prod.fst) (hks : k ≠ "status") :
    objGet (interactionReducer s (StoreAction.setFormData p)) k = objGet s k := by
  unfold interactionReducer
  rw [objGet_objSet_ne _ _ _ _ hks, objGet_objMerge_not_mem _ _ _ hk]

theorem objGet_status_of_not_setsStatus (s : JsObject) (a : StoreAction)
    (h : setsStatus a = false) :
    objGet (interactionReducer s a) "status" = objGet s "status" := by
  cases a with
  | updateField f v =>
      have hf : f ≠ "status" := by simpa [setsStatus] using h
      exact objGet_objSet_ne _ _ _ _ (Ne.symm hf)
  | addMessage m => exact objGet_addMessage_ne _ _ _ (by decide)
  | setFormData p => simp [setsStatus] at h
  | other => rfl

/-- C5 counterexample: a value outside the declared sentiment domain is
stored verbatim by a single-field patch — the reducer performs no enum
validation and raises no error. -/
theorem out_of_domain_sentiment_stored :
    objGet (interactionReducer (initialState "2025-01-01")
        (StoreAction.updateField "sentiment" (JsValue.str "Ecstatic")))
        "sentiment"
      = some (JsValue.str "Ecstatic")
    ∧ JsValue.str "Ecstatic"
        ∉ [JsValue.str "Positive", JsValue.str "Neutral", JsValue.str "Negative"] := by
  decide

/-- C5 amended: the reducer performs no validation at all — `UPDATE_FIELD`
stores whatever value is supplied for any field, enum-typed or not, so the
stored sentiment is simply the last value written to it, with no domain
check. -/
theorem update_field_stores_any_value (s : JsObject) (f : String)
    (v : JsValue) :
    objGet (interactionReducer s (StoreAction.updateField f v)) f = some v :=
  objGet_objSet_self s f v

/-- C4 counterexample: a payload containing a key that is not a recognized
InteractionRecord attribute is not rejected — the merge goes through and
the valid key `hcpName` is changed from its prior value. -/
theorem unrecognized_key_payload_mutates_record :
    objGet (handleSend (initialState "2025-01-01") "hi" false
        (FetchResult.ok "ok"
          (some [("bogus", JsValue.str "x"),
            ("hcpName", JsValue.str "Dr. Who")]))).state "hcpName"
      = some (JsValue.str "Dr. Who")
    ∧ "bogus" ∉ recordFields
    ∧ objGet (initialState "2025-01-01") "hcpName" = some (JsValue.str "") := by
  decide

/-- C4 amended: no key validation exists — a multi-key payload is merged in
full whether or not its keys are recognized record attributes (unknown keys
are simply added to the state object), and the assistant reply is still
appended to the transcript. -/
theorem payload_merged_without_validation (s : JsObject)
    (input resp : String) (t : Bool) (p : JsObject) (k : String)
    (v : JsValue) (h : strTrim input ≠ "")
    (hnd : (p.map Prod.fst).Nodup) (hlen : 2 ≤ p.length)
    (hmem : (k, v) ∈ p) (hks : k ≠ "status")
    (hchat : "chatHistory" ∉ p.map Prod.fst) :
    objGet (handleSend s input t (FetchResult.ok resp (some p))).state k
      = some v
    ∧ chatHistoryOf (handleSend s input t (FetchResult.ok resp (some p))).state
      = chatHistoryOf s ++ [⟨"user", input⟩, ⟨"ai", resp⟩] := by
  rcases p with _ | ⟨kv, _ | ⟨kv', rest⟩⟩
  · simp at hlen
  · simp at hlen
  · have hstate : (handleSend s input t
        (FetchResult.ok resp (some (kv :: kv' :: rest)))).state
        = interactionReducer
            (interactionReducer
              (interactionReducer s (StoreAction.addMessage ⟨"user", input⟩))
              (StoreAction.addMessage ⟨"ai", resp⟩))
            (StoreAction.setFormData (kv :: kv' :: rest)) := by
      simp [handleSend, handleSendPre, h]
    constructor
    · rw [hstate, objGet_setFormData_mem _ _ _ _ hnd hmem hks]
    · rw [hstate, chatHistoryOf_setFormData _ _ hchat,
        chatHistoryOf_addMessage, chatHistoryOf_addMessage,
        List.append_assoc]
      rfl

theorem payload_merged_without_validation_witness :
    objGet (handleSend (initialState "2025-01-01") "log it" false
        (FetchResult.ok "Logged."
          (some [("bogus", JsValue.str "x"),
            ("hcpName", JsValue.str "Dr. Who")]))).state "bogus"
      = some (JsValue.str "x") :=
  (payload_merged_without_validation (initialState "2025-01-01") "log it"
    "Logged." false
    [("bogus", JsValue.str "x"), ("hcpName", JsValue.str "Dr. Who")]
    "bogus" (JsValue.str "x") (by decide) (by decide) (by decide)
    (by decide) (by decide) (by decide)).1

/-- C6: a full-record merge of a valid multi-key payload changes exactly
the record fields named in the payload and leaves every record field
absent from the payload at its prior value — a merge, not a reset. -/
theorem full_record_merge_frames_absent_record_fields (s p : JsObject)
    (k : String) (v : JsValue) (hk : k ∈ recordFields)
    (hnd : (p.map Prod.fst).Nodup) :
    ((k, v) ∈ p →
      objGet (interactionReducer s (StoreAction.setFormData p)) k = some v)
    ∧ (k ∉ p.map Prod.fst →
      objGet (interactionReducer s (StoreAction.setFormData p)) k
        = objGet s k) := by
  have hks : k ≠ "status" := by
    rintro rfl
    exact absurd hk (by decide)
  exact ⟨fun hm => objGet_setFormData_mem s p k v hnd hm hks,
    fun hnm => objGet_setFormData_not_mem s p k hnm hks⟩

theorem full_record_merge_frames_witness :
    objGet (interactionReducer (initialState "2025-01-01")
        (StoreAction.setFormData
          [("hcpName", JsValue.str "Dr. Smith"),
            ("outcomes", JsValue.str "Samples requested")])) "sentiment"
      = objGet (initialState "2025-01-01") "sentiment" :=
  (full_record_merge_frames_absent_record_fields (initialState "2025-01-01")
    [("hcpName", JsValue.str "Dr. Smith"),
      ("outcomes", JsValue.str "Samples requested")]
    "sentiment" (JsValue.str "") (by decide) (by decide)).2 (by decide)

/-- C8 counterexample: the user message appended on a successful turn
carries the raw input text, not the trimmed text — trimming is only used in
the guard, so for the input `"  hi  "` (whose trimmed form differs) the
transcript entry is the untrimmed string. -/
theorem user_message_not_trimmed :
    chatHistoryOf (handleSend (initialState "2025-01-01") "  hi  " false
        (FetchResult.ok "ok" none)).state
      = chatHistoryOf (initialState "2025-01-01")
        ++ [⟨"user", "  hi  "⟩, ⟨"ai", "ok"⟩]
    ∧ strTrim "  hi  " ≠ "  hi  " := by
  decide

/-- C8 amended: on every successful turn whose input is non-empty after
trimming and whose extraction payload (if any) does not name the
`chatHistory` key, the transcript gains exactly two entries in order — a
user message carrying the raw (untrimmed) input, then the assistant
reply — and the user message is already in the store state from which the
request is issued. -/
theorem successful_turn_appends_two_messages (s : JsObject) (input : String)
    (t : Bool) (resp : String) (fd : Option JsObject)
    (h : strTrim input ≠ "") (hfd : fdAvoidsChat fd = true) :
    chatHistoryOf (handleSend s input t (FetchResult.ok resp fd)).state
      = chatHistoryOf s ++ [⟨"user", input⟩, ⟨"ai", resp⟩]
    ∧ handleSendPre s input
      = some (interactionReducer s (StoreAction.addMessage ⟨"user", input⟩))
    ∧ chatHistoryOf (interactionReducer s (StoreAction.addMessage ⟨"user", input⟩))
      = chatHistoryOf s ++ [⟨"user", input⟩] := by
  have htwo : chatHistoryOf (interactionReducer
      (interactionReducer s (StoreAction.addMessage ⟨"user", input⟩))
      (StoreAction.addMessage ⟨"ai", resp⟩))
      = chatHistoryOf s ++ [⟨"user", input⟩, ⟨"ai", resp⟩] := by
    rw [chatHistoryOf_addMessage, chatHistoryOf_addMessage, List.append_assoc]
    rfl
  refine ⟨?_, by simp [handleSendPre, h], chatHistoryOf_addMessage s _⟩
  rcases fd with _ | ⟨_ | ⟨⟨k, v⟩, _ | ⟨kv', rest⟩⟩⟩
  · rw [show (handleSend s input t (FetchResult.ok resp none)).state
        = interactionReducer
            (interactionReducer s (StoreAction.addMessage ⟨"user", input⟩))
            (StoreAction.addMessage ⟨"ai", resp⟩) from by
        simp [handleSend, handleSendPre, h]]
    exact htwo
  · rw [show (handleSend s input t (FetchResult.ok resp (some []))).state
        = interactionReducer
            (interactionReducer s (StoreAction.addMessage ⟨"user", input⟩))
            (StoreAction.addMessage ⟨"ai", resp⟩) from by
        simp [handleSend, handleSendPre, h]]
    exact htwo
  · have hk : k ≠ "chatHistory" := by
      simp [fdAvoidsChat] at hfd
      exact Ne.symm hfd
    rw [show (handleSend s input t (FetchResult.ok resp (some [(k, v)]))).state
        = objSet (interactionReducer
            (interactionReducer s (StoreAction.addMessage ⟨"user", input⟩))
            (StoreAction.addMessage ⟨"ai", resp⟩)) k v from by
        simp [handleSend, handleSendPre, h, interactionReducer]]
    rw [chatHistoryOf_objSet_ne _ _ _ hk]
    exact htwo
  · have hp : "chatHistory" ∉ ((k, v) :: kv' :: rest).map Prod.fst := by
      simpa [fdAvoidsChat] using hfd
    rw [show (handleSend s input t
          (FetchResult.ok resp (some ((k, v) :: kv' :: rest)))).state
        = interactionReducer (interactionReducer
            (interactionReducer s (StoreAction.addMessage ⟨"user", input⟩))
            (StoreAction.addMessage ⟨"ai", resp⟩))
            (StoreAction.setFormData ((k, v) :: kv' :: rest)) from by
        simp [handleSend, handleSendPre, h]]
    rw [chatHistoryOf_setFormData _ _ hp]
    exact htwo

theorem successful_turn_appends_two_messages_witness :
    chatHistoryOf (handleSend (initialState "2025-01-01") "I met Dr. Smith"
        false (FetchResult.ok "Noted."
          (some [("hcpName", JsValue.str "Dr. Smith")]))).state
      = chatHistoryOf (initialState "2025-01-01")
        ++ [⟨"user", "I met Dr. Smith"⟩, ⟨"ai", "Noted."⟩] :=
  (successful_turn_appends_two_messages (initialState "2025-01-01")
    "I met Dr. Smith" false "Noted."
    (some [("hcpName", JsValue.str "Dr. Smith")])
    (by decide) (by decide)).1

/-- C10 counterexample: `status = 'ai_filled'` does not mark exactly that a
multi-key fill has occurred — a single `UPDATE_FIELD` whose computed key is
`status` produces the same marker with no `SET_FORM_DATA` in the dispatched
sequence. -/
theorem status_ai_filled_without_full_fill :
    objGet (applyActions (initialState "2025-01-01")
        [StoreAction.updateField "status" (JsValue.str "ai_filled")]) "status"
      = some (JsValue.str "ai_filled")
    ∧ ([StoreAction.updateField "status" (JsValue.str "ai_filled")].any
        isSetFormData) = false := by
  decide

/-- C10 amended: every `SET_FORM_DATA` forces `status = 'ai_filled'`
regardless of the payload (a `status` key inside the payload is overridden
by the trailing write); an `UPDATE_FIELD` to any field other than `status`
leaves `status` unchanged; and `status` is only ever changed by an action
that writes it (`SET_FORM_DATA`, or `UPDATE_FIELD` whose computed key is
`status`) — so the marker witnesses a full fill or a direct status write,
not a full fill alone. -/
theorem set_form_data_forces_status_ai_filled (s p : JsObject) (f : String)
    (v : JsValue) (hf : f ≠ "status") :
    objGet (interactionReducer s (StoreAction.setFormData p)) "status"
      = some (JsValue.str "ai_filled")
    ∧ objGet (interactionReducer s (StoreAction.updateField f v)) "status"
      = objGet s "status"
    ∧ (∀ acts : List StoreAction,
        acts.all (fun a => !(setsStatus a)) = true →
        objGet (applyActions s acts) "status" = objGet s "status") := by
  refine ⟨objGet_objSet_self _ _ _, objGet_objSet_ne _ _ _ _ (Ne.symm hf), ?_⟩
  intro acts
  induction acts generalizing s with
  | nil => intro _; rfl
  | cons a rest ih =>
      intro hall
      simp only [List.all_cons, Bool.and_eq_true, Bool.not_eq_true'] at hall
      have hstep : objGet (interactionReducer s a) "status" = objGet s "status" :=
        objGet_status_of_not_setsStatus s a hall.1
      have htail : objGet (applyActions (interactionReducer s a) rest) "status"
          = objGet (interactionReducer s a) "status" := ih (interactionReducer s a) hall.2
      calc objGet (applyActions s (a :: rest)) "status"
          = objGet (applyActions (interactionReducer s a) rest) "status" := rfl
        _ = objGet (interactionReducer s a) "status" := htail
        _ = objGet s "status" := hstep

theorem set_form_data_forces_status_witness :
    objGet (interactionReducer (initialState "2025-01-01")
        (StoreAction.setFormData
          [("status", JsValue.str "idle"),
            ("hcpName", JsValue.str "Dr")])) "status"
      = some (JsValue.str "ai_filled") :=
  (set_form_data_forces_status_ai_filled (initialState "2025-01-01")
    [("status", JsValue.str "idle"), ("hcpName", JsValue.str "Dr")]
    "hcpName" (JsValue.str "") (by decide)).1
